import Mathlib

/-!
Verification of the donately Go client (github.com/willmadison/donately)
against its natural-language specification.

The development shallowly embeds the request/response pipeline of the client
(`client.go`, given as `src/unnamed/part_001`): request construction
(method, path, query and body encoding), response-envelope classification,
and the retry driver wrapped around `SaveDonation`.

Modelling conventions:
- Go machine integers (`int`, `int64`) are modelled as `Int`; HTTP status
  codes as `Nat`.
- External library behaviour (`encoding/json` unmarshalling, the HTTP
  transport) is modelled as oracles carried alongside raw data: an
  `HTTPResponse` records both the raw body text and the outcome of
  `json.Unmarshal` into the envelope shape; an envelope's `data` field
  records both its raw bytes and the outcome of unmarshalling it into a
  donation record.
- `net/url` escaping (`PathEscape`, `QueryEscape`, `Values.Encode`) and
  `encoding/json` marshalling of `url.Values` are reimplemented from the Go
  standard library's documented byte-level rules, since the client's request
  strings are built through them.
- A scripted list of `HTTPResponse` values stands for the successive
  responses the transport would deliver; running out of script models the
  caller's context being cancelled during backoff.
-/

namespace Donately

/-! ## Byte-level escaping (Go `net/url`)

Go escapes strings byte by byte over their UTF-8 encoding.  `utf8Bytes`
computes the UTF-8 bytes of a scalar value; the two `shouldEscape`
predicates transcribe `net/url.shouldEscape` for the `encodePathSegment`
and `encodeQueryComponent` modes. -/

/-- UTF-8 encoding of a Unicode scalar value, as a list of byte values. -/
def utf8Bytes (n : Nat) : List Nat :=
  if n < 0x80 then [n]
  else if n < 0x800 then [0xC0 + n / 64, 0x80 + n % 64]
  else if n < 0x10000 then [0xE0 + n / 4096, 0x80 + (n / 64) % 64, 0x80 + n % 64]
  else [0xF0 + n / 262144, 0x80 + (n / 4096) % 64, 0x80 + (n / 64) % 64, 0x80 + n % 64]

/-- The UTF-8 bytes of a string (Go strings are byte slices; Lean strings
are sequences of scalar values, so we expand each scalar). -/
def stringUTF8 (s : String) : List Nat :=
  s.data.flatMap fun c => utf8Bytes c.toNat

/-- Uppercase hexadecimal digit, used by Go's percent-escaping. -/
def hexDigitUpper (n : Nat) : Char :=
  if n < 10 then Char.ofNat (48 + n) else Char.ofNat (55 + n)

/-- Percent-escape a byte as `%XX` with uppercase hex digits. -/
def escapeByte (b : Nat) : List Char :=
  ['%', hexDigitUpper (b / 16), hexDigitUpper (b % 16)]

/-- Is `b` an unreserved byte (alphanumeric or `-`, `_`, `.`, `~`)?
Transcribed from the first two checks of `net/url.shouldEscape`. -/
def isUnreservedByte (b : Nat) : Bool :=
  (97 ≤ b && b ≤ 122) || (65 ≤ b && b ≤ 90) || (48 ≤ b && b ≤ 57) ||
    b == 45 || b == 95 || b == 46 || b == 126

/-- `net/url.shouldEscape` in `encodePathSegment` mode: besides unreserved
bytes, the sub-delimiters `$ & + : = @` stay literal inside one path
segment; `/ ; , ?` and everything else is escaped. -/
def shouldEscapePathSegmentByte (b : Nat) : Bool :=
  !(isUnreservedByte b ||
    b == 36 || b == 38 || b == 43 || b == 58 || b == 61 || b == 64)

/-- `net/url.shouldEscape` in `encodeQueryComponent` mode: everything but
unreserved bytes is escaped (space becomes `+`, handled in `queryEscape`). -/
def shouldEscapeQueryByte (b : Nat) : Bool :=
  !(isUnreservedByte b)

/-- Go `url.PathEscape`: percent-escape every byte the path-segment mode
requires escaped. -/
def pathEscape (s : String) : String :=
  ⟨(stringUTF8 s).flatMap fun b =>
    if shouldEscapePathSegmentByte b then escapeByte b else [Char.ofNat b]⟩

/-- Go `url.QueryEscape`: like `pathEscape` but in query-component mode,
with the space byte rendered as `+`. -/
def queryEscape (s : String) : String :=
  ⟨(stringUTF8 s).flatMap fun b =>
    if b == 32 then ['+']
    else if shouldEscapeQueryByte b then escapeByte b else [Char.ofNat b]⟩

/-! ## `url.Values`

Go's `url.Values` is a map from keys to lists of values; `Set` replaces
the binding for a key with a single value, and `Encode` emits
`key=value` pairs, query-escaped, with keys in sorted order.  We model the
map as an association list with distinct keys. -/

/-- Association-list model of Go `url.Values`. -/
abbrev URLValues := List (String × List String)

/-- `url.Values.Set`: replace the binding for `k` (or add one). -/
def URLValues.set (vs : URLValues) (k v : String) : URLValues :=
  if vs.any fun p => p.1 == k then
    vs.map fun p => if p.1 == k then (k, [v]) else p
  else
    vs ++ [(k, [v])]

/-- Fetch the values bound to a key (the map lookup underlying
`url.Values.Get`). -/
def URLValues.get (vs : URLValues) (k : String) : Option (List String) :=
  (vs.find? fun p => p.1 == k).map fun p => p.2

/-- Conditionally set a key: models the Go idiom
`if cond { params.Set(k, v) }` used throughout the resource operations. -/
def setIf (vs : URLValues) (c : Prop) [Decidable c] (k v : String) : URLValues :=
  if c then vs.set k v else vs

/-- Lexicographic order on scalar-value sequences.  Go `sort.Strings`
orders byte-wise over UTF-8; byte-wise and scalar-wise lexicographic
orders coincide on valid UTF-8, so this is Go string order. -/
def charListLE : List Char → List Char → Bool
  | [], _ => true
  | _ :: _, [] => false
  | a :: as, b :: bs =>
      if a.toNat < b.toNat then true
      else if b.toNat < a.toNat then false
      else charListLE as bs

/-- Go string order. -/
def goStringLE (a b : String) : Bool := charListLE a.data b.data

/-- Insert a pair into a key-sorted list (sorting step of
`url.Values.Encode`, which sorts keys before emitting). -/
def insertPairSorted (p : String × List String) :
    List (String × List String) → List (String × List String)
  | [] => [p]
  | q :: rest =>
      if goStringLE p.1 q.1 then p :: q :: rest else q :: insertPairSorted p rest

/-- Sort an association list by key (Go `sort.Strings` over the keys). -/
def sortPairs : List (String × List String) → List (String × List String)
  | [] => []
  | p :: rest => insertPairSorted p (sortPairs rest)

/-- Go `url.Values.Encode`: keys sorted, each value emitted as
`key=value` with both sides query-escaped, joined by `&`. -/
def URLValues.encode (vs : URLValues) : String :=
  String.intercalate "&"
    ((sortPairs vs).flatMap fun p =>
      p.2.map fun v => queryEscape p.1 ++ "=" ++ queryEscape v)

/-! ## JSON marshalling of `url.Values`

`RefundDonation` hands a `url.Values` to the JSON content-type path, where
Go `json.Marshal` renders it as an object with sorted keys and
array-of-string values, HTML-escaping `<`, `>`, `&`. -/

/-- Lowercase hexadecimal digit (Go's JSON `\u00XX` escapes use lowercase). -/
def hexDigitLower (n : Nat) : Char :=
  if n < 10 then Char.ofNat (48 + n) else Char.ofNat (87 + n)

/-- Escape one character the way Go `encoding/json` does inside a string
literal (default encoder, HTML escaping on). -/
def jsonEscapeChar (c : Char) : List Char :=
  if c == '"' then ['\\', '"']
  else if c == '\\' then ['\\', '\\']
  else if c == '\n' then ['\\', 'n']
  else if c == '\r' then ['\\', 'r']
  else if c == '\t' then ['\\', 't']
  else if c.toNat < 32 then
    ['\\', 'u', '0', '0', hexDigitLower (c.toNat / 16), hexDigitLower (c.toNat % 16)]
  else if c == '<' then ['\\', 'u', '0', '0', '3', 'c']
  else if c == '>' then ['\\', 'u', '0', '0', '3', 'e']
  else if c == '&' then ['\\', 'u', '0', '0', '2', '6']
  else if c.toNat == 0x2028 then ['\\', 'u', '2', '0', '2', '8']
  else if c.toNat == 0x2029 then ['\\', 'u', '2', '0', '2', '9']
  else [c]

/-- Render a Go JSON string literal. -/
def jsonString (s : String) : String :=
  "\"" ++ ⟨s.data.flatMap jsonEscapeChar⟩ ++ "\""

/-- Go `json.Marshal` of a `map[string][]string` (`url.Values`): object
with keys in sorted order, each value a JSON array of strings. -/
def jsonMarshalValues (vs : URLValues) : String :=
  "\x7b" ++
    String.intercalate ","
      ((sortPairs vs).map fun p =>
        jsonString p.1 ++ ":" ++
          ("[" ++ String.intercalate "," (p.2.map jsonString) ++ "]")) ++
  "\x7d"

/-! ## Resource records

The resource struct declarations (`accounts.go`, `persons.go`,
`donations.go`, `subscriptions.go`) are not under `src/`; their field sets
are modelled from the spec (§3: records are serializable values with an
opaque string ID) and from the fields the client source reads.  Campaign
(`src/campaigns.go`) carries many payload-only fields; only its `ID`
participates in request construction, so the remainder is modelled as the
opaque serialized payload the spec prescribes. -/

/-- Modelled from the spec: account record; the client reads only `ID`
(scoping) and the tests additionally use `Title`. -/
structure Account where
  id : String
  title : String
  deriving DecidableEq, Repr

/-- The Go zero value `Account{}`. -/
def Account.zero : Account := { id := "", title := "" }

/-- Modelled from the spec: person record; fields are exactly those the
client reads when building the `SavePerson` form body (part_001 lines
329-390), plus the associated accounts used for validation/scoping. -/
structure Person where
  id : String
  firstName : String
  lastName : String
  email : String
  phoneNumber : String
  streetAddress : String
  streetAddress2 : String
  city : String
  state : String
  zipCode : String
  country : String
  accounts : List Account
  deriving DecidableEq, Repr

/-- The Go zero value `Person{}`. -/
def Person.zero : Person :=
  { id := "", firstName := "", lastName := "", email := "", phoneNumber := ""
    streetAddress := "", streetAddress2 := "", city := "", state := ""
    zipCode := "", country := "", accounts := [] }

/-- Campaign record (`src/campaigns.go`): only `ID` affects request
construction; `marshalled` is the JSON text `json.Marshal` produces for
the whole record (codec oracle for the payload-only fields). -/
structure Campaign where
  id : String
  marshalled : String
  deriving DecidableEq, Repr

/-- The Go zero value `Campaign{}` (its `json.Marshal` text is irrelevant
to every claim; the empty string stands for it). -/
def Campaign.zero : Campaign := { id := "", marshalled := "" }

/-- Modelled from the spec: donation record; fields are exactly those the
client reads when building the `SaveDonation` query parameters (part_001
lines 449-492) and the refund/receipt paths. -/
structure Donation where
  id : String
  account : Account
  amountInCents : Int
  donationType : String
  campaign : Campaign
  person : Person
  comment : String
  anonymous : Bool
  onBehalfOf : String
  status : String
  deriving DecidableEq, Repr

/-- The Go zero value `Donation{}`: the value `SaveDonation` returns on
its early-return paths. -/
def Donation.zero : Donation :=
  { id := "", account := Account.zero, amountInCents := 0, donationType := ""
    campaign := Campaign.zero, person := Person.zero, comment := ""
    anonymous := false, onBehalfOf := "", status := "" }

/-- Modelled from the spec: subscription record; only `ID` affects request
construction, `marshalled` is its `json.Marshal` text (codec oracle). -/
structure Subscription where
  id : String
  marshalled : String
  deriving DecidableEq, Repr

/-! ## Response envelope and classification

`makeRequestWithContentType` (part_001 lines 185-253) reads the response
body, attempts to unmarshal it into `APIResponse`, and classifies the
outcome.  `RawData` models a `json.RawMessage` together with the outcome
of unmarshalling it into a donation (the only payload decode the claims
exercise); `HTTPResponse` models a completed transport round trip together
with the outcome of unmarshalling its body into the envelope shape. -/

deriving instance DecidableEq for Except

/-- A `json.RawMessage` payload: its raw bytes plus the oracle outcome of
`json.Unmarshal` into a `Donation`. -/
structure RawData where
  raw : String
  asDonation : Except String Donation
  deriving DecidableEq, Repr

/-- The Go `APIResponse` envelope: `data`, `type`, `message`, `code`,
`request_id`. -/
structure Envelope where
  data : RawData
  type : String
  message : String
  code : String
  requestId : String
  deriving DecidableEq, Repr

/-- A completed HTTP round trip: status code, raw body text, and the
oracle outcome of `json.Unmarshal(respBody, &apiResp)`. -/
structure HTTPResponse where
  statusCode : Nat
  rawBody : String
  parsed : Except String Envelope
  deriving DecidableEq, Repr

/-- Go `unicode.IsSpace`: ASCII whitespace plus the Unicode space
characters `strings.TrimSpace` trims. -/
def isGoSpace (c : Char) : Bool :=
  c == ' ' || c == '\t' || c == '\n' || c == '\x0b' || c == '\x0c' || c == '\r' ||
    c.toNat == 0x85 || c.toNat == 0xA0 || c.toNat == 0x1680 ||
    (0x2000 ≤ c.toNat && c.toNat ≤ 0x200A) ||
    c.toNat == 0x2028 || c.toNat == 0x2029 || c.toNat == 0x202F ||
    c.toNat == 0x205F || c.toNat == 0x3000

/-- Go `strings.TrimSpace`: drop leading and trailing whitespace. -/
def goTrimSpace (s : String) : String :=
  ⟨((s.data.dropWhile isGoSpace).reverse.dropWhile isGoSpace).reverse⟩

/-- Go `strings.ToLower`, restricted to ASCII letters.  This agrees with
Go on every string whose lowering could equal the ASCII sentinel
`retry later` (no character relevant to the sentinel lowers across the
ASCII boundary). -/
def goToLower (s : String) : String :=
  ⟨s.data.map fun c =>
    if 65 ≤ c.toNat ∧ c.toNat ≤ 90 then Char.ofNat (c.toNat + 32) else c⟩

/-- Go `%v` rendering of a byte slice: decimal byte values in brackets
(used when the raw envelope is embedded in an HTTP-error message). -/
def goFormatBytes (s : String) : String :=
  "[" ++ String.intercalate " " ((stringUTF8 s).map toString) ++ "]"

/-- Go `%v` rendering of the `APIResponse` struct: field values separated
by spaces inside braces, the `json.RawMessage` printed as a byte slice. -/
def Envelope.goFormat (e : Envelope) : String :=
  "\x7b" ++ goFormatBytes e.data.raw ++ " " ++ e.type ++ " " ++ e.message ++
    " " ++ e.code ++ " " ++ e.requestId ++ "\x7d"

/-- The classified failures `makeRequestWithContentType` can return, each
carrying what the corresponding Go error value carries.  `retryLater` is
the only constructor modelling a `retryableError` (the code only ever
constructs it with `canRetry: true`); `transport` models a failed
`client.Do`; `contextDone` models cancellation during backoff. -/
inductive RequestError where
  | unmarshalError (msg : String)
  | retryLater (msg : String)
  | apiError (code type message : String)
  | httpError (status : Nat) (env : Envelope)
  | transport (msg : String)
  | contextDone (msg : String)
  deriving DecidableEq, Repr

/-- The `Error()` text of each classified failure, transcribed from the
`fmt.Errorf` calls in part_001 (lines 235, 245, 249). -/
def RequestError.errorString : RequestError → String
  | .unmarshalError msg => msg
  | .retryLater msg => msg
  | .apiError code type message =>
      "API error: " ++ code ++ " - (" ++ type ++ ") " ++ message
  | .httpError status env =>
      "HTTP error: " ++ toString status ++ " (Raw Response: " ++ env.goFormat ++ ")"
  | .transport msg => msg
  | .contextDone msg => msg

/-- The retry gate `re, ok := err.(retryable); ok && re.CanRetry()`: only
`retryableError` implements the `retryable` interface, and it is only ever
constructed with `canRetry: true`. -/
def RequestError.canRetry : RequestError → Bool
  | .retryLater _ => true
  | _ => false

/-- Classification of a completed response, transcribed from
`makeRequestWithContentType` lines 231-252: unmarshal failure checks the
`retry later` sentinel on the trimmed, lower-cased raw body; a parsed
envelope with the full `type`/`message`/`code` triple is an API error
regardless of status; status ≥ 400 without the triple is an HTTP error;
anything else is success. -/
def classifyResponse (resp : HTTPResponse) : Except RequestError Envelope :=
  match resp.parsed with
  | .error e =>
      let errMsg := "failed to unmarshal response: " ++ e
      if "retry later" = goToLower (goTrimSpace resp.rawBody) then
        .error (.retryLater errMsg)
      else
        .error (.unmarshalError errMsg)
  | .ok apiResp =>
      if apiResp.type ≠ "" ∧ apiResp.message ≠ "" ∧ apiResp.code ≠ "" then
        .error (.apiError apiResp.code apiResp.type apiResp.message)
      else if 400 ≤ resp.statusCode then
        .error (.httpError resp.statusCode apiResp)
      else
        .ok apiResp

/-! ## Client construction (functional options)

`clientOption`, the `With...` options and `NewDonatelyClient` (part_001
lines 84-158).  Options are functions applied in order over the defaults;
construction then validates the API key and base URL. -/

/-- The `clientOption` configuration struct. -/
structure ClientOpts where
  apiKey : String
  baseURL : String
  donatelyAPIVersion : String
  doRetry : Bool
  debug : Bool
  deriving DecidableEq, Repr

/-- `WithAPIKey`. -/
def withAPIKey (key : String) : ClientOpts → ClientOpts :=
  fun o => { o with apiKey := key }

/-- `WithBaseURL`. -/
def withBaseURL (u : String) : ClientOpts → ClientOpts :=
  fun o => { o with baseURL := u }

/-- `WithRetry`. -/
def withRetry : ClientOpts → ClientOpts :=
  fun o => { o with doRetry := true }

/-- `NewDonatelyClient`: defaults, option application in order, then the
two validation checks, in source order. -/
def newDonatelyClient (options : List (ClientOpts → ClientOpts)) :
    Except String ClientOpts :=
  let defaults : ClientOpts :=
    { apiKey := "", baseURL := "https://api.donately.com/v2"
      donatelyAPIVersion := "2018-04-01", doRetry := false, debug := false }
  let c := options.foldl (fun acc o => o acc) defaults
  if c.apiKey = "" then .error "missing API key!"
  else if c.baseURL = "" then .error "missing base URL!"
  else .ok c

/-! ## Request construction

The request-building half of `makeRequestWithContentType` (part_001 lines
185-218): body encoding by content type, URL concatenation, and the four
unconditional headers.  `GoBody` models the `any`-typed body argument:
either a `url.Values` or a record whose `json.Marshal` text is carried as
an oracle. -/

/-- The `any`-typed request body: a `url.Values`, or a typed record
standing for the JSON text `json.Marshal` would produce for it. -/
inductive GoBody where
  | values (vs : URLValues)
  | record (json : String)
  deriving DecidableEq, Repr

/-- `json.Marshal` on the body argument: `url.Values` marshals as a
string-keyed map of string arrays; records carry their marshalled text. -/
def goJSONMarshal : GoBody → String
  | .values vs => jsonMarshalValues vs
  | .record j => j

/-- The outgoing HTTP request as the client assembles it: method, absolute
URL, the four headers, and the encoded body bytes. -/
structure BuiltRequest where
  method : String
  url : String
  donatelyVersion : String
  authorization : String
  contentType : String
  accept : String
  body : Option String
  deriving DecidableEq, Repr

/-- Request construction from `makeRequestWithContentType`: the form
content type requires a `url.Values` body (else the encoding error), every
other content type JSON-marshals the body; URL is base URL ++ endpoint;
headers are `Donately-Version`, `Authorization: Bearer <key>`,
`Content-Type`, `Accept: application/json`. -/
def makeRequestWithContentTypeBuild (opts : ClientOpts) (method endpoint : String)
    (body : Option GoBody) (contentType : String) : Except String BuiltRequest :=
  let encodedBody : Except String (Option String) :=
    match body with
    | none => .ok none
    | some b =>
        if contentType = "application/x-www-form-urlencoded" then
          match b with
          | .values vs => .ok (some (URLValues.encode vs))
          | _ => .error "body must be url.Values for form-encoded requests"
        else
          .ok (some (goJSONMarshal b))
  match encodedBody with
  | .error e => .error e
  | .ok eb =>
      .ok { method := method, url := opts.baseURL ++ endpoint
            donatelyVersion := opts.donatelyAPIVersion
            authorization := "Bearer " ++ opts.apiKey
            contentType := contentType, accept := "application/json"
            body := eb }

/-- `makeRequest`: `makeRequestWithContentType` with `application/json`. -/
def makeRequestBuild (opts : ClientOpts) (method endpoint : String)
    (body : Option GoBody) : Except String BuiltRequest :=
  makeRequestWithContentTypeBuild opts method endpoint body "application/json"

/-! ## Resource operations: request assembly

The per-operation path/query/body construction, transcribed from the
corresponding methods in part_001.  A `.error` result is a local failure
raised before any request is issued; a `.ok` result is the single request
the operation sends. -/

/-- `ListPeople` query parameters (lines 271-282): `account_id` always,
`offset`/`limit` only when strictly positive, as decimal strings. -/
def listPeopleParams (account : Account) (offset limit : Int) : URLValues :=
  let params := URLValues.set [] "account_id" account.id
  let params := setIf params (0 < offset) "offset" (toString offset)
  setIf params (0 < limit) "limit" (toString limit)

/-- The `ListPeople` request: `GET /people?<encoded params>`. -/
def listPeopleRequest (opts : ClientOpts) (account : Account) (offset limit : Int) :
    Except String BuiltRequest :=
  makeRequestBuild opts "GET"
    ("/people?" ++ URLValues.encode (listPeopleParams account offset limit)) none

/-- `ListDonations` query parameters (lines 392-402): same shape as
`ListPeople`. -/
def listDonationsParams (account : Account) (offset limit : Int) : URLValues :=
  let params := URLValues.set [] "account_id" account.id
  let params := setIf params (0 < offset) "offset" (toString offset)
  setIf params (0 < limit) "limit" (toString limit)

/-- The `ListDonations` request: `GET /donations?<encoded params>`. -/
def listDonationsRequest (opts : ClientOpts) (account : Account) (offset limit : Int) :
    Except String BuiltRequest :=
  makeRequestBuild opts "GET"
    ("/donations?" ++ URLValues.encode (listDonationsParams account offset limit)) none

/-- `SavePerson` endpoint choice (lines 329-336): empty ID routes to the
collection, otherwise to `/people/{path-escaped id}`. -/
def savePersonEndpoint (p : Person) : String :=
  if p.id = "" then "/people" else "/people/" ++ pathEscape p.id

/-- The `SavePerson` form body (lines 342-377): `account_id` from the
first associated account, then each optional field only when non-empty. -/
def savePersonForm (p : Person) : URLValues :=
  let accountId := (p.accounts.headD Account.zero).id
  let f := URLValues.set [] "account_id" accountId
  let f := setIf f (p.firstName ≠ "") "first_name" p.firstName
  let f := setIf f (p.lastName ≠ "") "last_name" p.lastName
  let f := setIf f (p.email ≠ "") "email" p.email
  let f := setIf f (p.phoneNumber ≠ "") "phone_number" p.phoneNumber
  let f := setIf f (p.streetAddress ≠ "") "street_address" p.streetAddress
  let f := setIf f (p.streetAddress2 ≠ "") "street_address_2" p.streetAddress2
  let f := setIf f (p.city ≠ "") "city" p.city
  let f := setIf f (p.state ≠ "") "state" p.state
  let f := setIf f (p.zipCode ≠ "") "zip_code" p.zipCode
  setIf f (p.country ≠ "") "country" p.country

/-- `SavePerson` request assembly (lines 329-379): validation
`len(person.Accounts) == 0 || person.Accounts[0].ID == ""` fails locally
with `missing account information` and issues no request; otherwise a
`POST` with the form body under the form content type. -/
def savePersonRequest (opts : ClientOpts) (p : Person) : Except String BuiltRequest :=
  let endpoint := savePersonEndpoint p
  if p.accounts.length = 0 ∨ (p.accounts.headD Account.zero).id = "" then
    .error "missing account information"
  else
    makeRequestWithContentTypeBuild opts "POST" endpoint
      (some (.values (savePersonForm p))) "application/x-www-form-urlencoded"

/-- `SaveDonation` endpoint choice (lines 449-456). -/
def saveDonationEndpoint (d : Donation) : String :=
  if d.id = "" then "/donations" else "/donations/" ++ pathEscape d.id

/-- `SaveDonation` query parameters (lines 462-488): `account_id` always,
then each optional field under its non-empty/non-zero guard. -/
def saveDonationParams (d : Donation) : URLValues :=
  let ps := URLValues.set [] "account_id" d.account.id
  let ps := setIf ps (0 < d.amountInCents) "amount_in_cents" (toString d.amountInCents)
  let ps := setIf ps (d.donationType ≠ "") "donation_type" d.donationType
  let ps := setIf ps (d.campaign.id ≠ "") "campaign_id" d.campaign.id
  let ps := setIf ps (d.person.email ≠ "") "email" d.person.email
  let ps := setIf ps (d.comment ≠ "") "comment" d.comment
  let ps := setIf ps (d.anonymous = true) "anonymous" "true"
  let ps := setIf ps (d.onBehalfOf ≠ "") "on_behalf_of" d.onBehalfOf
  setIf ps (d.status ≠ "") "status" d.status

/-- The full `SaveDonation` endpoint (lines 490-492): the query string is
appended whenever the parameter map is non-empty (it always contains
`account_id`, so it always is). -/
def saveDonationFullEndpoint (d : Donation) : String :=
  let params := saveDonationParams d
  let endpoint := saveDonationEndpoint d
  if 0 < params.length then endpoint ++ "?" ++ URLValues.encode params else endpoint

/-- `SaveDonation` request assembly (lines 449-494): validation of the
account ID fails locally with `missing account information` and issues no
request; otherwise a body-less `POST` carrying everything in the query. -/
def saveDonationRequest (opts : ClientOpts) (d : Donation) : Except String BuiltRequest :=
  if d.account.id = "" then .error "missing account information"
  else makeRequestBuild opts "POST" (saveDonationFullEndpoint d) none

/-- `RefundDonation` request assembly (lines 520-532): the refund path,
the same account validation, then a `url.Values` body with `account_id`
and `refund_reason` — handed to `makeRequest`, i.e. the JSON content-type
path, not the form path. -/
def refundDonationRequest (opts : ClientOpts) (d : Donation) (reason : String) :
    Except String BuiltRequest :=
  let endpoint := "/donations/" ++ pathEscape d.id ++ "/refund"
  if d.account.id = "" then .error "missing account information"
  else
    let formData := URLValues.set (URLValues.set [] "account_id" d.account.id)
      "refund_reason" reason
    makeRequestBuild opts "POST" endpoint (some (.values formData))

/-- `SaveSubscription` request assembly (lines 592-601): routing by ID,
whole record as JSON body. -/
def saveSubscriptionRequest (opts : ClientOpts) (s : Subscription) :
    Except String BuiltRequest :=
  let endpoint :=
    if s.id = "" then "/subscriptions" else "/subscriptions/" ++ pathEscape s.id
  makeRequestBuild opts "POST" endpoint (some (.record s.marshalled))

/-- `SaveCampaign` request assembly (lines 650-659): routing by ID, whole
record as JSON body. -/
def saveCampaignRequest (opts : ClientOpts) (c : Campaign) :
    Except String BuiltRequest :=
  let endpoint :=
    if c.id = "" then "/campaigns" else "/campaigns/" ++ pathEscape c.id
  makeRequestBuild opts "POST" endpoint (some (.record c.marshalled))

/-! ## `SaveDonation` dynamics

The observable outcome of a `SaveDonation` call (part_001 lines 494-518)
against a scripted list of responses, together with the number of HTTP
attempts issued.  The model transcribes the control flow exactly,
including its two anomalies:
- with `doRetry` set and a nil first error, the `else` branch
  `return Donation{}, err` still fires, returning the zero donation and a
  nil error without decoding the response;
- with `doRetry` unset, errors are never checked before
  `json.Unmarshal(resp.Data, ...)`, which dereferences the nil
  `*APIResponse` — a nil-pointer panic, modelled as `nilDereference`. -/

/-- The failure values `SaveDonation` can return. -/
inductive SaveError where
  | validation (msg : String)
  | request (e : RequestError)
  | decodePayload (msg : String)
  deriving DecidableEq, Repr

/-- Observable outcome of a `SaveDonation` call: a returned donation (with
nil error), a returned error, or a run-time nil-pointer dereference. -/
inductive SaveDonationResult where
  | success (d : Donation)
  | failure (e : SaveError)
  | nilDereference
  deriving DecidableEq, Repr

/-- The trailing payload decode (lines 512-517): unmarshal the envelope's
`data` into a donation. -/
def decodeSavedDonation (env : Envelope) : SaveDonationResult :=
  match env.data.asDonation with
  | .ok d => .success d
  | .error m => .failure (.decodePayload ("failed to unmarshal saved donation: " ++ m))

/-- `backoff.Retry` over the remaining scripted responses: the operation
is re-invoked until an attempt classifies as success; every error (of any
kind) is retried under the exponential backoff schedule.  Running out of
script models the caller's context being cancelled during a backoff delay.
Returns the final outcome and the number of attempts issued. -/
def backoffRetry : List HTTPResponse → Except RequestError Envelope × Nat
  | [] => (.error (.contextDone "context deadline exceeded"), 0)
  | r :: rest =>
      match classifyResponse r with
      | .ok env => (.ok env, 1)
      | .error _ =>
          let p := backoffRetry rest
          (p.1, p.2 + 1)

/-- The full `SaveDonation` call (lines 449-518) against a scripted
transport: validation, the first `makeRequest` (an empty script models a
transport failure), the retry block, and the payload decode.  Returns the
observable outcome and the number of HTTP attempts issued. -/
def saveDonation (opts : ClientOpts) (d : Donation) (script : List HTTPResponse) :
    SaveDonationResult × Nat :=
  if d.account.id = "" then (.failure (.validation "missing account information"), 0)
  else
    let first : Except RequestError Envelope :=
      match script with
      | [] => .error (.transport "failed to make request: connection refused")
      | r :: _ => classifyResponse r
    if opts.doRetry then
      match first with
      | .error e =>
          if e.canRetry then
            let p := backoffRetry script.tail
            match p.1 with
            | .error e2 => (.failure (.request e2), 1 + p.2)
            | .ok env => (decodeSavedDonation env, 1 + p.2)
          else
            (.failure (.request e), 1)
      | .ok _ =>
          (.success Donation.zero, 1)
    else
      match first with
      | .ok env => (decodeSavedDonation env, 1)
      | .error _ => (.nilDereference, 1)

/-! ## Fixtures

Concrete values used by the closed theorems and witnesses below, matching
the shapes exercised by `client_test.go`. -/

/-- A client configuration as built by `NewDonatelyClient` with only an
API key (retry disabled). -/
def optsNoRetry : ClientOpts :=
  { apiKey := "test-api-key", baseURL := "https://api.donately.com/v2"
    donatelyAPIVersion := "2018-04-01", doRetry := false, debug := false }

/-- The same configuration with `WithRetry` applied. -/
def optsRetry : ClientOpts := { optsNoRetry with doRetry := true }

/-- A donation that passes `SaveDonation` validation. -/
def dValid : Donation :=
  { Donation.zero with account := { id := "acc_123", title := "" }, amountInCents := 1000 }

/-- A 200 response whose body is the literal sentinel text, which fails to
unmarshal as the envelope. -/
def retryLaterResp : HTTPResponse :=
  { statusCode := 200, rawBody := "retry later"
    parsed := .error "invalid character r looking for beginning of value" }

/-- A well-formed success envelope whose `data` decodes to a donation with
ID `don_123`. -/
def envSuccess : Envelope :=
  { data := { raw := "\x7b\"id\":\"don_123\"\x7d"
              asDonation := .ok { Donation.zero with id := "don_123" } }
    type := "", message := "", code := "", requestId := "" }

/-- A 200 response carrying `envSuccess`. -/
def okResp : HTTPResponse :=
  { statusCode := 200, rawBody := "\x7b\"data\":\x7b\"id\":\"don_123\"\x7d\x7d"
    parsed := .ok envSuccess }

/-! ## Helper lemmas -/

/-- Classification of a response whose body fails to unmarshal and matches
the retry sentinel. -/
theorem classify_of_parse_error_sentinel (resp : HTTPResponse) (m : String)
    (hp : resp.parsed = .error m)
    (hs : "retry later" = goToLower (goTrimSpace resp.rawBody)) :
    classifyResponse resp = .error (.retryLater ("failed to unmarshal response: " ++ m)) := by
  simp [classifyResponse, hp, hs]

/-- Classification of a response whose body fails to unmarshal and does
not match the retry sentinel. -/
theorem classify_of_parse_error_other (resp : HTTPResponse) (m : String)
    (hp : resp.parsed = .error m)
    (hs : "retry later" ≠ goToLower (goTrimSpace resp.rawBody)) :
    classifyResponse resp = .error (.unmarshalError ("failed to unmarshal response: " ++ m)) := by
  simp [classifyResponse, hp, hs]

/-- `url.Values.Set` never empties the map. -/
theorem URLValues.set_length_pos (vs : URLValues) (k v : String) :
    0 < (vs.set k v).length := by
  unfold URLValues.set
  split
  · rename_i h
    rw [List.length_map]
    cases vs with
    | nil => simp at h
    | cons a t => simp
  · simp

/-- `setIf` never empties a non-empty map. -/
theorem setIf_length_pos (vs : URLValues) (c : Prop) [Decidable c] (k v : String)
    (h : 0 < vs.length) : 0 < (setIf vs c k v).length := by
  unfold setIf
  split
  · exact URLValues.set_length_pos vs k v
  · exact h

/-- `SaveDonation`'s parameter map always contains `account_id`, so it is
never empty and the query string is always appended. -/
theorem saveDonationParams_length_pos (d : Donation) :
    0 < (saveDonationParams d).length :=
  setIf_length_pos _ _ _ _ (setIf_length_pos _ _ _ _ (setIf_length_pos _ _ _ _
    (setIf_length_pos _ _ _ _ (setIf_length_pos _ _ _ _ (setIf_length_pos _ _ _ _
      (setIf_length_pos _ _ _ _ (setIf_length_pos _ _ _ _
        (URLValues.set_length_pos [] "account_id" d.account.id))))))))

/-! ## Claims -/

/-- C4: for every completed response whose body parses as the envelope
shape, a fully populated `type`/`message`/`code` triple yields the API
error with the exact deterministic text and no retryability, regardless of
HTTP status; without the full triple, a status ≥ 400 yields an HTTP error
whose text contains the decimal status code and is not retryable; and
otherwise the envelope is returned as success. -/
theorem classifier_envelope_cases (resp : HTTPResponse) (env : Envelope)
    (hp : resp.parsed = .ok env) :
    ((env.type ≠ "" ∧ env.message ≠ "" ∧ env.code ≠ "") →
      classifyResponse resp = .error (.apiError env.code env.type env.message) ∧
      (RequestError.apiError env.code env.type env.message).errorString =
        "API error: " ++ env.code ++ " - (" ++ env.type ++ ") " ++ env.message ∧
      (RequestError.apiError env.code env.type env.message).canRetry = false) ∧
    (¬(env.type ≠ "" ∧ env.message ≠ "" ∧ env.code ≠ "") → 400 ≤ resp.statusCode →
      classifyResponse resp = .error (.httpError resp.statusCode env) ∧
      (∃ pre post, (RequestError.httpError resp.statusCode env).errorString =
        pre ++ toString resp.statusCode ++ post) ∧
      (RequestError.httpError resp.statusCode env).canRetry = false) ∧
    (¬(env.type ≠ "" ∧ env.message ≠ "" ∧ env.code ≠ "") → resp.statusCode < 400 →
      classifyResponse resp = .ok env) := by
  refine ⟨fun h => ?_, fun h hs => ?_, fun h hs => ?_⟩
  · exact ⟨by simp [classifyResponse, hp, h], rfl, rfl⟩
  · refine ⟨by simp [classifyResponse, hp, h, hs], ?_, rfl⟩
    exact ⟨"HTTP error: ", " (Raw Response: " ++ env.goFormat ++ ")",
      by simp [RequestError.errorString, String.append_assoc]⟩
  · simp [classifyResponse, hp, h, Nat.not_le.mpr hs]

/-- The `invalid_api_key` error envelope from the test suite. -/
def envAPIErr : Envelope :=
  { data := { raw := "", asDonation := .error "no data" },
    type := "error", message := "Invalid API key",
    code := "invalid_api_key", requestId := "" }

/-- A 500 response carrying `envAPIErr`. -/
def respAPIErr : HTTPResponse :=
  { statusCode := 500, rawBody := "", parsed := .ok envAPIErr }

/-- An envelope with no API-error triple. -/
def envEmpty : Envelope :=
  { data := { raw := "", asDonation := .error "no data" },
    type := "", message := "", code := "", requestId := "" }

/-- A 404 response carrying `envEmpty`. -/
def resp404 : HTTPResponse :=
  { statusCode := 404, rawBody := "\x7b\x7d", parsed := .ok envEmpty }

/-- C4 witness: the two error branches at concrete responses — the
`invalid_api_key` envelope on a 500, and a 404 with an empty envelope. -/
theorem classifier_envelope_witness :
    classifyResponse respAPIErr =
      .error (.apiError "invalid_api_key" "error" "Invalid API key") ∧
    (RequestError.apiError "invalid_api_key" "error" "Invalid API key").errorString =
      "API error: invalid_api_key - (error) Invalid API key" ∧
    (RequestError.apiError "invalid_api_key" "error" "Invalid API key").canRetry = false ∧
    classifyResponse resp404 = .error (.httpError 404 envEmpty) := by
  have h1 := (classifier_envelope_cases respAPIErr envAPIErr rfl).1 (by decide)
  have h2 := (classifier_envelope_cases resp404 envEmpty rfl).2.1 (by decide) (by decide)
  exact ⟨h1.1, h1.2.1, h1.2.2, h2.1⟩

/-- C6: for every response whose body fails to parse as the envelope, the
trimmed, lower-cased body equalling the sentinel `retry later` yields the
retryable error (can-retry true, with no condition on the HTTP status);
any other unparseable body yields the generic decode error wrapping the
parse failure, which is not retryable. -/
theorem classifier_sentinel_cases (resp : HTTPResponse) (m : String)
    (hp : resp.parsed = .error m) :
    ("retry later" = goToLower (goTrimSpace resp.rawBody) →
      classifyResponse resp =
        .error (.retryLater ("failed to unmarshal response: " ++ m)) ∧
      (RequestError.retryLater ("failed to unmarshal response: " ++ m)).canRetry = true) ∧
    ("retry later" ≠ goToLower (goTrimSpace resp.rawBody) →
      classifyResponse resp =
        .error (.unmarshalError ("failed to unmarshal response: " ++ m)) ∧
      (RequestError.unmarshalError ("failed to unmarshal response: " ++ m)).canRetry
        = false) := by
  exact ⟨fun hs => ⟨classify_of_parse_error_sentinel resp m hp hs, rfl⟩,
    fun hs => ⟨classify_of_parse_error_other resp m hp hs, rfl⟩⟩

/-- A 503 response whose body matches the sentinel after trimming and
case-folding. -/
def respSentinel : HTTPResponse :=
  { statusCode := 503, rawBody := " Retry LATER ",
    parsed := .error "invalid character R" }

/-- A 200 response with an unparseable, non-sentinel body. -/
def respGarbage : HTTPResponse :=
  { statusCode := 200, rawBody := "garbage",
    parsed := .error "invalid character g" }

/-- C6 witness: the sentinel branch on a 503 whose body is
`" Retry LATER "` (trimming and case-folding apply), and the generic
branch on a body of `garbage`. -/
theorem classifier_sentinel_witness :
    classifyResponse respSentinel =
      .error (.retryLater "failed to unmarshal response: invalid character R") ∧
    (RequestError.retryLater
      "failed to unmarshal response: invalid character R").canRetry = true ∧
    classifyResponse respGarbage =
      .error (.unmarshalError "failed to unmarshal response: invalid character g") ∧
    (RequestError.unmarshalError
      "failed to unmarshal response: invalid character g").canRetry = false := by
  have h1 := (classifier_sentinel_cases respSentinel "invalid character R" rfl).1 (by decide)
  have h2 := (classifier_sentinel_cases respGarbage "invalid character g" rfl).2 (by decide)
  exact ⟨h1.1, h1.2, h2.1, h2.2⟩

/-- C1: with retry disabled, a first response body of literal `retry
later` does NOT surface the retryable error: `SaveDonation` skips the
error check entirely when `doRetry` is unset and dereferences the nil
`*APIResponse` (`resp.Data` at part_001 line 513), a nil-pointer panic.
One attempt is issued and no further requests.  This evaluates the code at
the claim's failing input. -/
theorem saveDonation_noRetry_retryLater_panics :
    saveDonation optsNoRetry dValid [retryLaterResp] = (.nilDereference, 1) ∧
    classifyResponse retryLaterResp =
      .error (.retryLater
        ("failed to unmarshal response: " ++
          "invalid character r looking for beginning of value")) ∧
    (RequestError.retryLater
      ("failed to unmarshal response: " ++
        "invalid character r looking for beginning of value")).canRetry = true := by
  exact ⟨by decide, by decide, rfl⟩

/-- C2: with retry enabled, a successful first request does NOT return the
decoded donation: the nil first error fails the `retryable` type
assertion, so the `else` branch `return Donation\x7b\x7d, err` (part_001
line 508) fires with a nil error, returning the zero donation without
decoding the envelope's `data` — even though that `data` decodes to a
donation with ID `don_123`.  This evaluates the code at the claim's
failing input. -/
theorem saveDonation_retryOn_firstSuccess_dropsPayload :
    saveDonation optsRetry dValid [okResp] = (.success Donation.zero, 1) ∧
    okResp.parsed = .ok envSuccess ∧
    classifyResponse okResp = .ok envSuccess ∧
    envSuccess.data.asDonation = .ok { Donation.zero with id := "don_123" } ∧
    Donation.zero.id = "" := by
  exact ⟨by decide, rfl, by decide, rfl, rfl⟩

/-- The refund input from the test suite: donation `don_123` on account
`acc_123`. -/
def dRefund : Donation :=
  { Donation.zero with id := "don_123", account := { id := "acc_123", title := "" } }

/-- C3: `RefundDonation` does NOT send a form-urlencoded body.  It builds
the `url.Values` but hands them to `makeRequest`, i.e. the
`application/json` content type, so the body is the JSON marshalling of
the values map (string-keyed arrays) — not the form encoding.  The path
and the two field names match the claim; the encoding does not.  This
evaluates the code at the claim's failing input. -/
theorem refundDonation_sends_json_body :
    ∃ req, refundDonationRequest optsNoRetry dRefund "Customer request" = .ok req ∧
      req.method = "POST" ∧
      req.url = "https://api.donately.com/v2/donations/don_123/refund" ∧
      req.contentType = "application/json" ∧
      req.contentType ≠ "application/x-www-form-urlencoded" ∧
      req.body = some
        "\x7b\"account_id\":[\"acc_123\"],\"refund_reason\":[\"Customer request\"]\x7d" ∧
      req.body ≠ some (URLValues.encode
        (URLValues.set (URLValues.set [] "account_id" "acc_123")
          "refund_reason" "Customer request")) := by
  refine ⟨{ method := "POST"
            url := "https://api.donately.com/v2/donations/don_123/refund"
            donatelyVersion := "2018-04-01"
            authorization := "Bearer test-api-key"
            contentType := "application/json"
            accept := "application/json"
            body := some
              "\x7b\"account_id\":[\"acc_123\"],\"refund_reason\":[\"Customer request\"]\x7d" },
    by decide, rfl, rfl, rfl, by decide, rfl, by decide⟩

/-- A person whose first associated account has an empty ID but whose
second has a non-empty one. -/
def pSecondAccount : Person :=
  { Person.zero with
      accounts := [{ id := "", title := "" }, { id := "acc_123", title := "" }] }

/-- C5 counterexample: `SavePerson` validation inspects only the FIRST
associated account, so a person who does have an account with a non-empty
ID (in second position) still fails with the local validation error —
refuting the claimed "lacks at least one associated account with a
non-empty ID" if-and-only-if. -/
theorem savePerson_validation_counterexample :
    savePersonRequest optsNoRetry pSecondAccount =
      .error "missing account information" ∧
    ∃ a ∈ pSecondAccount.accounts, a.id ≠ "" := by
  exact ⟨by decide, { id := "acc_123", title := "" }, by decide, by decide⟩

/-- C5 (amended): `SavePerson` fails with the local validation error —
issuing no request, as the error branch precedes request construction —
exactly when the accounts list is empty or its first account's ID is
empty; `SaveDonation` fails the same way exactly when the donation's
account ID is empty. -/
theorem save_validation_gate :
    (∀ (opts : ClientOpts) (p : Person),
      savePersonRequest opts p = .error "missing account information" ↔
        (p.accounts.length = 0 ∨ (p.accounts.headD Account.zero).id = "")) ∧
    (∀ (opts : ClientOpts) (d : Donation),
      saveDonationRequest opts d = .error "missing account information" ↔
        d.account.id = "") := by
  constructor
  · intro opts p
    simp only [savePersonRequest]
    by_cases h : p.accounts.length = 0 ∨ (p.accounts.headD Account.zero).id = ""
    · rw [if_pos h]
      exact iff_of_true rfl h
    · rw [if_neg h]
      refine iff_of_false ?_ h
      intro hcontra
      simp [makeRequestWithContentTypeBuild] at hcontra
  · intro opts d
    simp only [saveDonationRequest]
    by_cases h : d.account.id = ""
    · rw [if_pos h]
      exact iff_of_true rfl h
    · rw [if_neg h]
      refine iff_of_false ?_ h
      intro hcontra
      simp [makeRequestBuild, makeRequestWithContentTypeBuild] at hcontra

/-- C7: with retry enabled, a first attempt classified retryable (the
`retry later` sentinel) followed by an attempt that classifies as success
returns the donation decoded from the second response's `data` after
exactly two attempts, with no error surfaced. -/
theorem saveDonation_retry_two_attempts (opts : ClientOpts) (d : Donation)
    (r₁ r₂ : HTTPResponse) (m : String) (env : Envelope) (dn : Donation)
    (hR : opts.doRetry = true)
    (hacct : d.account.id ≠ "")
    (h₁ : r₁.parsed = .error m)
    (h₂ : "retry later" = goToLower (goTrimSpace r₁.rawBody))
    (h₃ : classifyResponse r₂ = .ok env)
    (h₄ : env.data.asDonation = .ok dn) :
    saveDonation opts d [r₁, r₂] = (.success dn, 2) := by
  have hc := classify_of_parse_error_sentinel r₁ m h₁ h₂
  simp [saveDonation, hacct, hR, hc, RequestError.canRetry, backoffRetry, h₃,
    decodeSavedDonation, h₄]

/-- C7 witness: the exact scripted sequence of the repository's
`TestRetryOnRetryableError`: `retry later` then a success envelope
decoding to donation `don_123`, two attempts. -/
theorem saveDonation_retry_two_attempts_witness :
    saveDonation optsRetry dValid [retryLaterResp, okResp] =
      (.success { Donation.zero with id := "don_123" }, 2) := by
  exact saveDonation_retry_two_attempts optsRetry dValid retryLaterResp okResp
    "invalid character r looking for beginning of value" envSuccess
    { Donation.zero with id := "don_123" } rfl (by decide) rfl (by decide)
    (by decide) rfl

/-- C8: every save operation is a `POST` whose path is the collection when
the record's ID is empty and `{collection}/{path-escaped id}` when it is
non-empty (for donations, followed by the always-present query string). -/
theorem save_routing (opts : ClientOpts) :
    (∀ p : Person, (p.accounts.headD Account.zero).id ≠ "" →
      ∃ req, savePersonRequest opts p = .ok req ∧ req.method = "POST" ∧
        req.url = opts.baseURL ++
          (if p.id = "" then "/people" else "/people/" ++ pathEscape p.id)) ∧
    (∀ d : Donation, d.account.id ≠ "" →
      ∃ req, saveDonationRequest opts d = .ok req ∧ req.method = "POST" ∧
        req.url = opts.baseURL ++
          (if d.id = "" then "/donations" else "/donations/" ++ pathEscape d.id) ++
          "?" ++ URLValues.encode (saveDonationParams d)) ∧
    (∀ s : Subscription,
      ∃ req, saveSubscriptionRequest opts s = .ok req ∧ req.method = "POST" ∧
        req.url = opts.baseURL ++
          (if s.id = "" then "/subscriptions" else "/subscriptions/" ++ pathEscape s.id)) ∧
    (∀ c : Campaign,
      ∃ req, saveCampaignRequest opts c = .ok req ∧ req.method = "POST" ∧
        req.url = opts.baseURL ++
          (if c.id = "" then "/campaigns" else "/campaigns/" ++ pathEscape c.id)) := by
  refine ⟨fun p hp => ?_, fun d hd => ?_, fun s => ?_, fun c => ?_⟩
  · have hg : ¬(p.accounts.length = 0 ∨ (p.accounts.headD Account.zero).id = "") := by
      rintro (h0 | h1)
      · cases hl : p.accounts with
        | nil => exact hp (by simp [hl, Account.zero])
        | cons a t => rw [hl] at h0; simp at h0
      · exact hp h1
    simp only [savePersonRequest, if_neg hg]
    simp +decide only [makeRequestWithContentTypeBuild]
    exact ⟨_, rfl, rfl, rfl⟩
  · have hlen := saveDonationParams_length_pos d
    simp only [saveDonationRequest, if_neg hd, makeRequestBuild,
      makeRequestWithContentTypeBuild]
    refine ⟨_, rfl, rfl, ?_⟩
    simp only [saveDonationFullEndpoint, saveDonationEndpoint, if_pos hlen]
    simp [String.append_assoc]
  · simp +decide only [saveSubscriptionRequest, makeRequestBuild,
      makeRequestWithContentTypeBuild]
    exact ⟨_, rfl, rfl, rfl⟩
  · simp +decide only [saveCampaignRequest, makeRequestBuild,
      makeRequestWithContentTypeBuild]
    exact ⟨_, rfl, rfl, rfl⟩

/-- A person whose ID contains a space (escaped to `%20`). -/
def pEscaped : Person :=
  { Person.zero with id := "p 1", accounts := [{ id := "acc_123", title := "" }] }

/-- A donation whose ID contains a slash (escaped to `%2F`). -/
def dEscaped : Donation :=
  { Donation.zero with id := "don/1", account := { id := "acc_123", title := "" } }

/-- A subscription with an empty ID (create path). -/
def subNew : Subscription := { id := "", marshalled := "\x7b\x7d" }

/-- A campaign with a non-empty ID (update path). -/
def campExisting : Campaign := { id := "camp_123", marshalled := "\x7b\x7d" }

/-- C8 witness: the four routes at concrete records, with path escaping
visible (`p 1` → `p%201`, `don/1` → `don%2F1`). -/
theorem save_routing_witness :
    (∃ req, savePersonRequest optsNoRetry pEscaped = .ok req ∧
      req.method = "POST" ∧
      req.url = "https://api.donately.com/v2/people/p%201") ∧
    (∃ req, saveDonationRequest optsNoRetry dEscaped = .ok req ∧
      req.method = "POST" ∧
      req.url = "https://api.donately.com/v2/donations/don%2F1?account_id=acc_123") ∧
    (∃ req, saveSubscriptionRequest optsNoRetry subNew = .ok req ∧
      req.method = "POST" ∧
      req.url = "https://api.donately.com/v2/subscriptions") ∧
    (∃ req, saveCampaignRequest optsNoRetry campExisting = .ok req ∧
      req.method = "POST" ∧
      req.url = "https://api.donately.com/v2/campaigns/camp_123") := by
  obtain ⟨h1, h2, h3, h4⟩ := save_routing optsNoRetry
  exact ⟨h1 pEscaped (by decide), h2 dEscaped (by decide), h3 subNew, h4 campExisting⟩

/-- C9: in `ListPeople` and `ListDonations`, the `offset` and `limit`
parameters appear in the parameter map (and hence the encoded query
string, which the request URL is built from) exactly when strictly
positive, each as its decimal string; zero or negative values are omitted.
The closing conjuncts evaluate the encoded query at concrete inputs. -/
theorem list_pagination_params :
    (∀ (account : Account) (offset limit : Int),
      URLValues.get (listPeopleParams account offset limit) "offset" =
        (if 0 < offset then some [toString offset] else none) ∧
      URLValues.get (listPeopleParams account offset limit) "limit" =
        (if 0 < limit then some [toString limit] else none) ∧
      URLValues.get (listDonationsParams account offset limit) "offset" =
        (if 0 < offset then some [toString offset] else none) ∧
      URLValues.get (listDonationsParams account offset limit) "limit" =
        (if 0 < limit then some [toString limit] else none)) ∧
    (∀ (opts : ClientOpts) (account : Account) (offset limit : Int),
      (∃ req, listPeopleRequest opts account offset limit = .ok req ∧
        req.url = opts.baseURL ++
          ("/people?" ++ URLValues.encode (listPeopleParams account offset limit))) ∧
      (∃ req, listDonationsRequest opts account offset limit = .ok req ∧
        req.url = opts.baseURL ++
          ("/donations?" ++
            URLValues.encode (listDonationsParams account offset limit)))) ∧
    URLValues.encode (listPeopleParams { id := "acc_123", title := "" } 0 0) =
      "account_id=acc_123" ∧
    URLValues.encode (listPeopleParams { id := "acc_123", title := "" } (-5) (-1)) =
      "account_id=acc_123" ∧
    URLValues.encode (listPeopleParams { id := "acc_123", title := "" } 10 20) =
      "account_id=acc_123&limit=20&offset=10" := by
  refine ⟨fun account offset limit => ?_, fun opts account offset limit => ?_,
    by decide, by decide, by decide⟩
  · by_cases ho : 0 < offset <;> by_cases hl : 0 < limit <;>
      simp +decide [listPeopleParams, listDonationsParams, setIf, URLValues.set,
        URLValues.get, ho, hl, List.find?]
  · constructor
    · simp only [listPeopleRequest, makeRequestBuild, makeRequestWithContentTypeBuild]
      exact ⟨_, rfl, rfl⟩
    · simp only [listDonationsRequest, makeRequestBuild, makeRequestWithContentTypeBuild]
      exact ⟨_, rfl, rfl⟩

/-- C10: an explicitly supplied empty base URL overrides the non-empty
default, so construction with a non-empty API key and `WithBaseURL("")`
fails with exactly `missing base URL!`. -/
theorem newClient_empty_baseURL (key : String) (h : key ≠ "") :
    newDonatelyClient [withAPIKey key, withBaseURL ""] =
      .error "missing base URL!" := by
  simp [newDonatelyClient, withAPIKey, withBaseURL, h]

/-- C10 witness: the concrete construction with the test suite's API key
and an explicitly empty base URL. -/
theorem newClient_empty_baseURL_witness :
    newDonatelyClient [withAPIKey "test-api-key", withBaseURL ""] =
      .error "missing base URL!" :=
  newClient_empty_baseURL "test-api-key" (by decide)

end Donately
